import Mathlib

/-!
# ZoneMinder `Monitor` (src/zm_monitor.h): capture pipeline and frame ring

A shallow embedding of the inline member functions `Capture`, `PostCapture`,
`Ready` and `Adjust` of `class Monitor`, and of the data members they use.

Conventions of the embedding.

* C `int` is the 32-bit two's-complement type: its values are integers (`Int`)
  and `image_count++` is the successor wrapped into `-2^31 .. 2^31-1`
  (`wrapInt`), so that `INT_MAX` is followed by `INT_MIN`.  `time_t` values are
  integers.
* The C operator `%` is `Int.tmod` (truncation toward zero).  With a zero
  divisor the code raises SIGFPE and the call does not return; such calls are
  outside the model.
* A `double` value is a rational number.  Conversion to `double` and division
  round to the nearest double, ties to even (`toDouble`); the exponent range,
  infinities and NaN are outside the model.
* C strings are lists of characters, their size counted in UTF-8 bytes
  (`byteLength`).
* The image type is a parameter `I`.  The pixel operations of `Image`
  (`Annotate`, `Blend`), and the C library calls `strftime`/`localtime` and
  `sprintf`, live outside this header and are passed in as `Collaborators`.
* The camera and the clocks are the environment: a call receives what the
  camera and the clocks answer during that call.
* `Warning((...))` and `Info((...))` are recorded in the result of a call.
* `image_buffer` is the array of ring slots addressed by an `int` index.
-/

namespace ZoneMinder

/-- Monitor function modes: `enum { NONE=1, PASSIVE, ACTIVE, X10 }`. -/
inductive Monitor.Function where
  | NONE
  | PASSIVE
  | ACTIVE
  | X10
  deriving DecidableEq, Repr

/-- Numeric value of an enumerator of `Monitor::Function`. -/
def Monitor.Function.toInt : Monitor.Function → Int
  | .NONE => 1
  | .PASSIVE => 2
  | .ACTIVE => 3
  | .X10 => 4

/-- Alarm states: `enum { IDLE, ALARM, ALERT }`. -/
inductive Monitor.State where
  | IDLE
  | ALARM
  | ALERT
  deriving DecidableEq, Repr

/-- Image coordinate (`Coord`, zm_coord.h). -/
structure Coord where
  x : Int
  y : Int
  deriving DecidableEq, Repr

/-- The C `struct timeval`. -/
structure Timeval where
  tv_sec : Int
  tv_usec : Int
  deriving DecidableEq, Repr

/-- One ring slot, `struct Snapshot`: the timestamp and the frame it points to. -/
structure Snapshot (I : Type) where
  timestamp : Timeval
  image : I

/-- The scalar part of the cross-process record `SharedImages`; its `timestamps`
and `images` arrays are the storage the ring slots point into. -/
structure SharedImages where
  state : Monitor.State
  last_write_index : Int
  last_read_index : Int
  last_event : Int
  forced_alarm : Bool
  deriving DecidableEq, Repr

/-- The data members of `class Monitor` read or written by the inline member functions. -/
structure Monitor (I : Type) where
  id : Int
  name : List Char
  label_format : List Char
  label_coord : Coord
  warmup_count : Int
  pre_event_count : Int
  post_event_count : Int
  alarm_frame_count : Int
  image_buffer_count : Int
  fps_report_interval : Int
  ref_blend_perc : Int
  function : Monitor.Function
  fps : ℚ
  image : I
  ref_image : I
  event_count : Int
  image_count : Int
  first_alarm_count : Int
  last_alarm_count : Int
  buffer_count : Int
  state : Monitor.State
  n_zones : Int
  start_time : Int
  last_fps_time : Int
  shmid : Int
  image_buffer : Int → Snapshot I
  shared_images : SharedImages
  record_event_stats : Bool

/-- Operations used by the header but defined elsewhere: `Image::Annotate`,
`Image::Blend`, and the C library formatting calls.  `strftime fmt now` is the
text left in `label_time_text` by
`strftime( label_time_text, 64, fmt, localtime( &now ) )`; `sprintf fmt arg` is
the text left in `label_text` by `sprintf( label_text, fmt, arg )`. -/
structure Collaborators (I : Type) where
  Annotate : I → List Char → Coord → I
  Blend : I → I → ℚ → I
  strftime : List Char → Int → List Char
  sprintf : List Char → List Char → List Char

/-- What `camera->PostCapture( image )` answers: its status and the contents of
`image` when it returns. -/
structure CameraResult (I : Type) where
  status : Int
  image : I

/-- The environment of one `Monitor::PostCapture()` call: the camera's answer,
the value of `time( 0 )` and the value stored by `gettimeofday`. -/
structure CaptureInput (I : Type) where
  cam : CameraResult I
  now : Int
  tv : Timeval

/-- The `Info` line of the FPS report: name, image count and rate. -/
structure FpsReport where
  name : List Char
  image_count : Int
  fps : ℚ

/-- Result of `Monitor::PostCapture()`: the returned status, the monitor
afterwards, and the observable calls made on the way. -/
structure PostCaptureResult (I : Type) where
  status : Int
  monitor : Monitor I
  annotated : Option (List Char × Coord)
  warning : Option Int
  info : Option FpsReport

/-- Largest value of a C `int`. -/
def INT_MAX : Int := 2147483647

/-- Value of an `int` expression whose mathematical result is `x`: `x` wrapped
into the range `-2^31 .. 2^31-1`. -/
def wrapInt (x : Int) : Int :=
  (x + 2147483648) % 4294967296 - 2147483648

/-- Number of binary digits of `n`, with `fuel` bounding the recursion. -/
def bitLengthAux : Nat → Nat → Nat
  | 0, _ => 0
  | fuel + 1, n => if n = 0 then 0 else bitLengthAux fuel (n / 2) + 1

/-- Number of binary digits of `n`. -/
def bitLength (n : Nat) : Nat :=
  bitLengthAux n n

/-- The integer nearest to `n / d`, ties going to the even one (`d > 0`). -/
def roundNearestEven (n d : Nat) : Nat :=
  if 2 * (n % d) < d then n / d
  else if d < 2 * (n % d) then n / d + 1
  else if n / d % 2 = 0 then n / d else n / d + 1

/-- Significand and scale of the double nearest to `n / d` (`n, d > 0`): the
pair `(m, s)` stands for `m / 2^s`, where `s` is chosen so that `n / d * 2^s` lies
in `2^52 .. 2^53` and `m` is that number rounded to an integer. -/
def roundParts (n d : Nat) : Nat × Int :=
  let e0 : Int := (bitLength n : Int) - (bitLength d : Int)
  let ge : Bool :=
    if 0 ≤ e0 then decide (d * 2 ^ e0.toNat ≤ n) else decide (d ≤ n * 2 ^ (-e0).toNat)
  let e : Int := if ge then e0 else e0 - 1
  let s : Int := 52 - e
  let m := if 0 ≤ s then roundNearestEven (n * 2 ^ s.toNat) d
           else roundNearestEven n (d * 2 ^ (-s).toNat)
  (m, s)

/-- The double nearest to `n / d` (`n, d > 0`), as a rational. -/
def toDoublePos (n d : Nat) : ℚ :=
  if 0 ≤ (roundParts n d).2 then ((roundParts n d).1 : ℚ) / 2 ^ (roundParts n d).2.toNat
  else ((roundParts n d).1 : ℚ) * 2 ^ (-(roundParts n d).2).toNat

/-- Rounding of a real result to `double`: the nearest number with a 53-bit
significand, ties to even. -/
def toDouble (q : ℚ) : ℚ :=
  if q.num = 0 then 0
  else if 0 < q.num then toDoublePos q.num.natAbs q.den
  else - toDoublePos q.num.natAbs q.den

/-- Conversion of an integer to `double`, as in `double( fps_report_interval )`. -/
def doubleOfInt (a : Int) : ℚ :=
  toDouble (a : ℚ)

/-- Division of two `double` values (divisor not zero). -/
def doubleDiv (x y : ℚ) : ℚ :=
  toDouble (x / y)

/-- Size in bytes of a C string holding these characters in UTF-8, terminator
not counted. -/
def byteLength (s : List Char) : Nat :=
  (s.map (fun c => c.utf8Size)).sum

/-- Assignment to one slot of the ring: `image_buffer[index] = s`. -/
def setSlot {I : Type} (buf : Int → Snapshot I) (index : Int) (s : Snapshot I) : Int → Snapshot I :=
  fun j => if j = index then s else buf j

namespace Monitor

variable {I : Type}

/-- Text drawn on the frame: `strftime` on `label_format`, then `sprintf` of the
result with `name` as the argument. -/
def labelText (ext : Collaborators I) (m : Monitor I) (now : Int) : List Char :=
  let label_time_text := ext.strftime m.label_format now
  ext.sprintf label_time_text m.name

/-- The frame in `image` after the labelling block of `PostCapture` (lines 158-164). -/
def labelled (ext : Collaborators I) (m : Monitor I) (frame : I) (now : Int) : I :=
  if m.label_format ≠ [] then ext.Annotate frame (labelText ext m now) m.label_coord else frame

/-- `Monitor::PostCapture()`. -/
def PostCapture (ext : Collaborators I) (m : Monitor I) (inp : CaptureInput I) : PostCaptureResult I :=
  if inp.cam.status = 0 then
    let now := inp.now
    let annotated : Option (List Char × Coord) :=
      if m.label_format ≠ [] then some (labelText ext m now, m.label_coord) else none
    let image := labelled ext m inp.cam.image now
    let index := Int.tmod m.image_count m.image_buffer_count
    let warning : Option Int :=
      if index = m.shared_images.last_read_index then some index else none
    let image_buffer := setSlot m.image_buffer index ⟨inp.tv, image⟩
    let shared_images := { m.shared_images with last_write_index := index }
    let image_count := wrapInt (m.image_count + 1)
    if image_count ≠ 0 ∧ Int.tmod image_count m.fps_report_interval = 0 then
      let fps : ℚ := doubleDiv (doubleOfInt m.fps_report_interval) (doubleOfInt (now - m.last_fps_time))
      { status := 0
        monitor := { m with image := image, image_buffer := image_buffer,
                            shared_images := shared_images, image_count := image_count,
                            fps := fps, last_fps_time := now }
        annotated := annotated
        warning := warning
        info := some ⟨m.name, image_count, fps⟩ }
    else
      { status := 0
        monitor := { m with image := image, image_buffer := image_buffer,
                            shared_images := shared_images, image_count := image_count }
        annotated := annotated
        warning := warning
        info := none }
  else
    { status := -1
      monitor := { m with image := inp.cam.image }
      annotated := none
      warning := none
      info := none }

/-- `Monitor::Ready()`. -/
def Ready (m : Monitor I) : Bool :=
  decide (m.function.toInt ≥ Function.ACTIVE.toInt ∧ m.image_count > m.warmup_count)

/-- `Monitor::Adjust( double ratio )`: `ref_image.Blend( image, 0.1 )`. -/
def Adjust (ext : Collaborators I) (m : Monitor I) (ratio : ℚ) : Monitor I :=
  { m with ref_image := ext.Blend m.ref_image m.image (1 / 10) }

end Monitor

/-- The camera member functions `Monitor::Capture()` may call. -/
inductive CameraCall where
  | PreCapture
  | PostCapture
  deriving DecidableEq, Repr

/-- Result of `Monitor::Capture()`: status, the monitor afterwards and the
camera calls made, in order. -/
structure CaptureResult (I : Type) where
  status : Int
  monitor : Monitor I
  calls : List CameraCall

/-- `Monitor::Capture()`; `pre` and `post` are the statuses `camera->PreCapture()`
and `camera->PostCapture()` answer when called. -/
def Monitor.Capture {I : Type} (m : Monitor I) (pre post : Int) : CaptureResult I :=
  if pre = 0 then
    if post = 0 then
      { status := 0, monitor := m, calls := [.PreCapture, .PostCapture] }
    else
      { status := -1, monitor := m, calls := [.PreCapture, .PostCapture] }
  else
    { status := -1, monitor := m, calls := [.PreCapture] }

/-- Reference semantics of the C library `sprintf` on the directives `%s` and `%%`:
`pending` tells that the previous character was an unmatched `%`.  `%s` takes
the next argument, `%%` prints one percent sign, any other character is copied.
Every other directive, a `%s` with no argument left and a lone trailing `%`
are outside the fragment (`none`). -/
def sprintfAux : Bool → List Char → List (List Char) → Option (List Char)
  | false, [], _ => some []
  | true, [], _ => none
  | false, c :: rest, args =>
    if c = '%' then sprintfAux true rest args
    else (sprintfAux false rest args).map (fun out => c :: out)
  | true, c :: rest, args =>
    if c = '%' then (sprintfAux false rest args).map (fun out => '%' :: out)
    else if c = 's' then
      match args with
      | a :: args' => (sprintfAux false rest args').map (fun out => a ++ out)
      | [] => none
    else none

/-- Reference semantics of `sprintf( buf, fmt, args... )` on the `%s`/`%%` fragment. -/
def sprintfSpec (fmt : List Char) (args : List (List Char)) : Option (List Char) :=
  sprintfAux false fmt args

/-- The `sprintf` collaborator agrees with the C semantics of `%s` and `%%`
whenever the output and its terminator fit the 64 bytes of `label_text`. -/
def Collaborators.SprintfConforms {I : Type} (ext : Collaborators I) : Prop :=
  ∀ fmt arg out, sprintfSpec fmt [arg] = some out → byteLength out < 64 →
    ext.sprintf fmt arg = out

/-- The label as the specification words it: the text with the name put
verbatim in place of each `%s` placeholder and every other character kept. -/
def substituteVerbatim : List Char → List Char → List Char
  | [], _ => []
  | [c], _ => [c]
  | c :: d :: rest, name =>
    if c = '%' ∧ d = 's' then name ++ substituteVerbatim rest name
    else c :: substituteVerbatim (d :: rest) name

/-- The snapshot a successful `PostCapture` stores: the `gettimeofday` value and
the labelled frame. -/
def Monitor.pushed {I : Type} (ext : Collaborators I) (m : Monitor I) (inp : CaptureInput I) : Snapshot I :=
  ⟨inp.tv, m.labelled ext inp.cam.image inp.now⟩

/-- Modelled from the spec: the `Image` capability (zm_image.h is not among the
sources).  A frame is its pixel values; the texts drawn on it by `Annotate` are
kept beside the pixels. -/
structure PixelImage where
  pixels : List ℚ
  overlay : List (List Char × Coord)
  deriving DecidableEq

/-- Modelled from the spec: `Image::Annotate( text, position )`, recorded as one
more text drawn at that position. -/
def PixelImage.Annotate (img : PixelImage) (text : List Char) (coord : Coord) : PixelImage :=
  { img with overlay := img.overlay ++ [(text, coord)] }

/-- Modelled from the spec: `Image::Blend( source, weight )`, every pixel becoming
`old·(1−weight) + source·weight`. -/
def PixelImage.Blend (img src : PixelImage) (weight : ℚ) : PixelImage :=
  { img with pixels := List.zipWith (fun o f => o * (1 - weight) + f * weight) img.pixels src.pixels }

/-- Two decimal digits of a number below one hundred. -/
def twoDigits (n : Nat) : List Char :=
  [Char.ofNat (48 + n / 10 % 10), Char.ofNat (48 + n % 10)]

/-- A small `strftime`: `%H`, `%M` and `%S` of the UTC time of day and `%%`;
every other character is copied.  `pending` tells that the previous character
was an unmatched `%`. -/
def clockFormat (now : Int) : Bool → List Char → List Char
  | _, [] => []
  | false, c :: rest =>
    if c = '%' then clockFormat now true rest else c :: clockFormat now false rest
  | true, c :: rest =>
    if c = 'H' then twoDigits (now.toNat / 3600 % 24) ++ clockFormat now false rest
    else if c = 'M' then twoDigits (now.toNat / 60 % 60) ++ clockFormat now false rest
    else if c = 'S' then twoDigits (now.toNat % 60) ++ clockFormat now false rest
    else c :: clockFormat now false rest

/-- The collaborators of the concrete instance. -/
def demoLib : Collaborators PixelImage where
  Annotate := PixelImage.Annotate
  Blend := PixelImage.Blend
  strftime := fun fmt now => clockFormat now false fmt
  sprintf := fun fmt arg => (sprintfSpec fmt [arg]).getD []

/-- A frame of two pixels with nothing drawn on it. -/
def demoFrame (a b : ℚ) : PixelImage :=
  { pixels := [a, b], overlay := [] }

/-- A monitor with a ring of three slots that has captured four frames. -/
def demoMonitor : Monitor PixelImage where
  id := 1
  name := "Front".toList
  label_format := "%%s %H:%M".toList
  label_coord := ⟨4, 8⟩
  warmup_count := 2
  pre_event_count := 1
  post_event_count := 1
  alarm_frame_count := 1
  image_buffer_count := 3
  fps_report_interval := 5
  ref_blend_perc := 50
  function := .ACTIVE
  fps := 0
  image := demoFrame 0 0
  ref_image := demoFrame 0 100
  event_count := 0
  image_count := 4
  first_alarm_count := 0
  last_alarm_count := 0
  buffer_count := 0
  state := .IDLE
  n_zones := 0
  start_time := 1000
  last_fps_time := 1000
  shmid := 7
  image_buffer := fun _ => ⟨⟨0, 0⟩, demoFrame 0 0⟩
  shared_images := ⟨.IDLE, 0, 1, 0, false⟩
  record_event_stats := false

/-- A successful camera answer at 13:05:02 UTC. -/
def demoInput : CaptureInput PixelImage where
  cam := ⟨0, demoFrame 30 40⟩
  now := 47102
  tv := ⟨47102, 250000⟩

/-- A failing camera answer. -/
def demoFailure : CaptureInput PixelImage where
  cam := ⟨-1, demoFrame 9 9⟩
  now := 47103
  tv := ⟨47103, 0⟩

/-- The concrete monitor with its counter at `INT_MAX`. -/
def maxMonitor : Monitor PixelImage :=
  { demoMonitor with image_count := 2147483647 }

/-- The concrete monitor with a label template that also prints a percent sign. -/
def percentMonitor : Monitor PixelImage :=
  { demoMonitor with label_format := "%%s 100%%%% %H".toList }

/-- C1. `Ready()` holds exactly when `function >= ACTIVE` and
`image_count > warmup_count`, under the order NONE=1 < PASSIVE=2 < ACTIVE=3 < X10=4:
it is false for NONE and PASSIVE whatever the counts, false when
`image_count <= warmup_count`, and for ACTIVE and X10 it is exactly
`image_count > warmup_count`. -/
theorem Monitor.ready_iff {I : Type} (m : Monitor I) :
    (m.Ready = true ↔ (m.function.toInt ≥ Monitor.Function.ACTIVE.toInt ∧ m.image_count > m.warmup_count))
    ∧ (Monitor.Function.NONE.toInt = 1 ∧ Monitor.Function.PASSIVE.toInt = 2
        ∧ Monitor.Function.ACTIVE.toInt = 3 ∧ Monitor.Function.X10.toInt = 4)
    ∧ ((m.function = .NONE ∨ m.function = .PASSIVE) → m.Ready = false)
    ∧ (m.image_count ≤ m.warmup_count → m.Ready = false)
    ∧ ((m.function = .ACTIVE ∨ m.function = .X10) → (m.Ready = true ↔ m.image_count > m.warmup_count)) := by
  refine ⟨by simp [Monitor.Ready], ⟨rfl, rfl, rfl, rfl⟩, ?_, ?_, ?_⟩
  · rintro (h | h) <;> simp [Monitor.Ready, h, Monitor.Function.toInt]
  · intro h
    simp only [Monitor.Ready, decide_eq_false_iff_not, not_and, not_lt]
    intro _
    exact h
  · rintro (h | h) <;> simp [Monitor.Ready, h, Monitor.Function.toInt]

/-! ## One call of `PostCapture` -/

theorem Monitor.postCapture_status_ok {I : Type} (ext : Collaborators I) (m : Monitor I)
    (inp : CaptureInput I) (h : inp.cam.status = 0) : (m.PostCapture ext inp).status = 0 := by
  unfold Monitor.PostCapture
  simp only [h, if_true]
  split <;> rfl

theorem Monitor.postCapture_image_count {I : Type} (ext : Collaborators I) (m : Monitor I)
    (inp : CaptureInput I) (h : inp.cam.status = 0) :
    (m.PostCapture ext inp).monitor.image_count = wrapInt (m.image_count + 1) := by
  unfold Monitor.PostCapture
  simp only [h, if_true]
  split <;> rfl

/-- Inside the `int` range nothing is wrapped. -/
theorem wrapInt_of_range (x : Int) (h1 : -2147483648 ≤ x) (h2 : x ≤ 2147483647) :
    wrapInt x = x := by
  unfold wrapInt
  omega

/-- Below `INT_MAX` the increment is the successor. -/
theorem Monitor.postCapture_image_count_succ {I : Type} (ext : Collaborators I) (m : Monitor I)
    (inp : CaptureInput I) (h : inp.cam.status = 0) (h0 : 0 ≤ m.image_count)
    (h1 : m.image_count < INT_MAX) :
    (m.PostCapture ext inp).monitor.image_count = m.image_count + 1 := by
  unfold INT_MAX at h1
  rw [m.postCapture_image_count ext inp h, wrapInt_of_range _ (by omega) (by omega)]

theorem Monitor.postCapture_image_buffer {I : Type} (ext : Collaborators I) (m : Monitor I)
    (inp : CaptureInput I) (h : inp.cam.status = 0) :
    (m.PostCapture ext inp).monitor.image_buffer
      = setSlot m.image_buffer (Int.tmod m.image_count m.image_buffer_count) (m.pushed ext inp) := by
  unfold Monitor.PostCapture
  simp only [h, if_true]
  split <;> rfl

theorem Monitor.postCapture_image {I : Type} (ext : Collaborators I) (m : Monitor I)
    (inp : CaptureInput I) (h : inp.cam.status = 0) :
    (m.PostCapture ext inp).monitor.image = m.labelled ext inp.cam.image inp.now := by
  unfold Monitor.PostCapture
  simp only [h, if_true]
  split <;> rfl

theorem Monitor.postCapture_shared {I : Type} (ext : Collaborators I) (m : Monitor I)
    (inp : CaptureInput I) (h : inp.cam.status = 0) :
    (m.PostCapture ext inp).monitor.shared_images
      = { m.shared_images with
          last_write_index := Int.tmod m.image_count m.image_buffer_count } := by
  unfold Monitor.PostCapture
  simp only [h, if_true]
  split <;> rfl

theorem Monitor.postCapture_warning {I : Type} (ext : Collaborators I) (m : Monitor I)
    (inp : CaptureInput I) (h : inp.cam.status = 0) :
    (m.PostCapture ext inp).warning
      = if Int.tmod m.image_count m.image_buffer_count = m.shared_images.last_read_index
        then some (Int.tmod m.image_count m.image_buffer_count) else none := by
  unfold Monitor.PostCapture
  simp only [h, if_true]
  split <;> rfl

theorem Monitor.postCapture_annotated {I : Type} (ext : Collaborators I) (m : Monitor I)
    (inp : CaptureInput I) (h : inp.cam.status = 0) :
    (m.PostCapture ext inp).annotated
      = if m.label_format ≠ [] then some (m.labelText ext inp.now, m.label_coord) else none := by
  unfold Monitor.PostCapture
  simp only [h, if_true]
  split <;> rfl

theorem Monitor.postCapture_failure {I : Type} (ext : Collaborators I) (m : Monitor I)
    (inp : CaptureInput I) (h : inp.cam.status ≠ 0) :
    m.PostCapture ext inp
      = { status := -1, monitor := { m with image := inp.cam.image },
          annotated := none, warning := none, info := none } := by
  unfold Monitor.PostCapture
  simp only [h, if_false]

theorem setSlot_same {I : Type} (buf : Int → Snapshot I) (i : Int) (s : Snapshot I) :
    setSlot buf i s i = s := by
  simp [setSlot]

theorem setSlot_other {I : Type} (buf : Int → Snapshot I) (i j : Int) (s : Snapshot I)
    (h : j ≠ i) : setSlot buf i s j = buf j := by
  simp [setSlot, h]

/-- On a non-negative count and a positive divisor the C `%` is the mathematical remainder. -/
theorem tmod_eq_emod_of_nonneg (a b : Int) (ha : 0 ≤ a) (hb : 0 < b) : Int.tmod a b = a % b :=
  Int.tmod_eq_emod ha (le_of_lt hb)

/-- C2 (amended). With `image_count >= 0`, `image_buffer_count > 0` and
`fps_report_interval > 0`, when the camera's `PostCapture( image )` answers 0,
`Monitor::PostCapture()` returns 0; the slot
`index = image_count mod image_buffer_count` (old count, `0 <= index < image_buffer_count`)
receives the captured frame and the fresh timestamp; `last_write_index` becomes
that index; every other slot is unchanged; and, when `image_count < INT_MAX`,
`image_count` grows by exactly one. -/
theorem Monitor.postCapture_pushes {I : Type} (ext : Collaborators I) (m : Monitor I)
    (inp : CaptureInput I) (hcount : 0 ≤ m.image_count) (hN : 0 < m.image_buffer_count)
    (_hF : 0 < m.fps_report_interval) (hcam : inp.cam.status = 0) :
    (m.PostCapture ext inp).status = 0
    ∧ 0 ≤ m.image_count % m.image_buffer_count
    ∧ m.image_count % m.image_buffer_count < m.image_buffer_count
    ∧ (m.PostCapture ext inp).monitor.image = m.labelled ext inp.cam.image inp.now
    ∧ (m.PostCapture ext inp).monitor.image_buffer (m.image_count % m.image_buffer_count)
        = ⟨inp.tv, (m.PostCapture ext inp).monitor.image⟩
    ∧ (m.PostCapture ext inp).monitor.shared_images.last_write_index
        = m.image_count % m.image_buffer_count
    ∧ (∀ j, j ≠ m.image_count % m.image_buffer_count →
        (m.PostCapture ext inp).monitor.image_buffer j = m.image_buffer j)
    ∧ (m.image_count < INT_MAX →
        (m.PostCapture ext inp).monitor.image_count = m.image_count + 1) := by
  have hmod := tmod_eq_emod_of_nonneg m.image_count m.image_buffer_count hcount hN
  refine ⟨m.postCapture_status_ok ext inp hcam, Int.emod_nonneg _ (ne_of_gt hN),
    Int.emod_lt_of_pos _ hN, m.postCapture_image ext inp hcam, ?_, ?_, ?_,
    m.postCapture_image_count_succ ext inp hcam hcount⟩
  · rw [m.postCapture_image_buffer ext inp hcam, m.postCapture_image ext inp hcam, hmod,
      setSlot_same]
    rfl
  · rw [m.postCapture_shared ext inp hcam, hmod]
  · intro j hj
    rw [m.postCapture_image_buffer ext inp hcam, hmod, setSlot_other _ _ _ _ hj]

/-- C2 (amended) at the concrete monitor: count 4 on a ring of 3 writes slot 1
and leaves count 5. -/
theorem Monitor.postCapture_pushes_witness :
    (demoMonitor.PostCapture demoLib demoInput).status = 0
    ∧ (demoMonitor.PostCapture demoLib demoInput).monitor.image_buffer 1
        = ⟨⟨47102, 250000⟩, (demoMonitor.PostCapture demoLib demoInput).monitor.image⟩
    ∧ (demoMonitor.PostCapture demoLib demoInput).monitor.shared_images.last_write_index = 1
    ∧ (∀ j, j ≠ 1 →
        (demoMonitor.PostCapture demoLib demoInput).monitor.image_buffer j
          = demoMonitor.image_buffer j)
    ∧ (demoMonitor.PostCapture demoLib demoInput).monitor.image_count = 5 := by
  have h := Monitor.postCapture_pushes demoLib demoMonitor demoInput (by decide) (by decide)
    (by decide) rfl
  have e : demoMonitor.image_count % demoMonitor.image_buffer_count = 1 := by decide
  rw [e] at h
  exact ⟨h.1, h.2.2.2.2.1, h.2.2.2.2.2.1, h.2.2.2.2.2.2.1, h.2.2.2.2.2.2.2 (by decide)⟩

/-- C2 as first stated fails at `image_count = INT_MAX`: the state meets every
condition of the claim and the camera answers 0, yet the count left by
`image_count++` is `-2147483648`, not `2147483647 + 1`. -/
theorem Monitor.postCapture_pushes_counterexample :
    0 ≤ maxMonitor.image_count
    ∧ 0 < maxMonitor.image_buffer_count
    ∧ 0 < maxMonitor.fps_report_interval
    ∧ demoInput.cam.status = 0
    ∧ (maxMonitor.PostCapture demoLib demoInput).status = 0
    ∧ (maxMonitor.PostCapture demoLib demoInput).monitor.image_count = -2147483648
    ∧ (maxMonitor.PostCapture demoLib demoInput).monitor.image_count
        ≠ maxMonitor.image_count + 1 := by
  have hc : (maxMonitor.PostCapture demoLib demoInput).monitor.image_count = -2147483648 := by
    rw [maxMonitor.postCapture_image_count demoLib demoInput rfl]
    decide
  refine ⟨by decide, by decide, by decide, rfl,
    maxMonitor.postCapture_status_ok demoLib demoInput rfl, hc, ?_⟩
  rw [hc]
  decide

/-- C3. In a successful `PostCapture()` the overrun warning is emitted exactly
when the write index `image_count % image_buffer_count` equals the shared
`last_read_index` held at the push; with or without the warning the slot is
overwritten, `last_write_index` is set and 0 is returned. -/
theorem Monitor.postCapture_overrun {I : Type} (ext : Collaborators I) (m : Monitor I)
    (inp : CaptureInput I) (hcam : inp.cam.status = 0) :
    ((m.PostCapture ext inp).warning.isSome = true
        ↔ Int.tmod m.image_count m.image_buffer_count = m.shared_images.last_read_index)
    ∧ (Int.tmod m.image_count m.image_buffer_count = m.shared_images.last_read_index →
        (m.PostCapture ext inp).warning = some (Int.tmod m.image_count m.image_buffer_count))
    ∧ (m.PostCapture ext inp).monitor.image_buffer (Int.tmod m.image_count m.image_buffer_count)
        = ⟨inp.tv, m.labelled ext inp.cam.image inp.now⟩
    ∧ (m.PostCapture ext inp).monitor.shared_images.last_write_index
        = Int.tmod m.image_count m.image_buffer_count
    ∧ (m.PostCapture ext inp).status = 0
    ∧ (0 ≤ m.image_count → 0 < m.image_buffer_count →
        Int.tmod m.image_count m.image_buffer_count = m.image_count % m.image_buffer_count) := by
  refine ⟨?_, ?_, ?_, ?_, m.postCapture_status_ok ext inp hcam,
    tmod_eq_emod_of_nonneg _ _⟩
  · rw [m.postCapture_warning ext inp hcam]
    split <;> simp_all
  · intro h
    rw [m.postCapture_warning ext inp hcam, if_pos h]
  · rw [m.postCapture_image_buffer ext inp hcam, setSlot_same]
    rfl
  · rw [m.postCapture_shared ext inp hcam]

/-- C3 at the concrete monitor: the reader is at slot 1, the push writes slot 1
and warns, and still stores the frame and returns 0. -/
theorem Monitor.postCapture_overrun_witness :
    (demoMonitor.PostCapture demoLib demoInput).warning = some 1
    ∧ (demoMonitor.PostCapture demoLib demoInput).monitor.shared_images.last_write_index = 1
    ∧ (demoMonitor.PostCapture demoLib demoInput).status = 0 := by
  have h := Monitor.postCapture_overrun demoLib demoMonitor demoInput rfl
  have e : Int.tmod demoMonitor.image_count demoMonitor.image_buffer_count = 1 := by decide
  rw [e] at h
  exact ⟨h.2.1 (by decide), h.2.2.2.1, h.2.2.2.2.1⟩

/-- C5. When the camera's `PostCapture( image )` answers a nonzero status,
`Monitor::PostCapture()` returns -1; `image_count`, every ring slot,
`last_write_index`, `fps` and `last_fps_time` keep their values (every member
other than the capture buffer `image` handed to the camera does); no label is
drawn and no overrun warning or FPS report is emitted. -/
theorem Monitor.postCapture_camera_failure {I : Type} (ext : Collaborators I) (m : Monitor I)
    (inp : CaptureInput I) (hcam : inp.cam.status ≠ 0) :
    (m.PostCapture ext inp).status = -1
    ∧ (m.PostCapture ext inp).monitor.image_count = m.image_count
    ∧ (m.PostCapture ext inp).monitor.image_buffer = m.image_buffer
    ∧ (m.PostCapture ext inp).monitor.shared_images = m.shared_images
    ∧ (m.PostCapture ext inp).monitor.fps = m.fps
    ∧ (m.PostCapture ext inp).monitor.last_fps_time = m.last_fps_time
    ∧ (m.PostCapture ext inp).monitor = { m with image := inp.cam.image }
    ∧ (m.PostCapture ext inp).annotated = none
    ∧ (m.PostCapture ext inp).warning = none
    ∧ (m.PostCapture ext inp).info = none := by
  rw [m.postCapture_failure ext inp hcam]
  exact ⟨rfl, rfl, rfl, rfl, rfl, rfl, rfl, rfl, rfl, rfl⟩

/-- C5 at the concrete monitor with a camera answering -1. -/
theorem Monitor.postCapture_camera_failure_witness :
    (demoMonitor.PostCapture demoLib demoFailure).status = -1
    ∧ (demoMonitor.PostCapture demoLib demoFailure).monitor.image_count = 4
    ∧ (demoMonitor.PostCapture demoLib demoFailure).monitor.shared_images.last_write_index = 0
    ∧ (demoMonitor.PostCapture demoLib demoFailure).warning = none := by
  have h := Monitor.postCapture_camera_failure demoLib demoMonitor demoFailure (by decide)
  refine ⟨h.1, h.2.1, ?_, h.2.2.2.2.2.2.2.2.1⟩
  rw [h.2.2.2.1]
  rfl

/-- C6. `Capture()` returns 0 exactly when `camera->PreCapture()` answers 0 and
then `camera->PostCapture()` answers 0, and -1 in every other case; when
`PreCapture()` fails `PostCapture()` is not called; the monitor (so
`image_count`, the ring slots and `last_write_index`) is left as it was. -/
theorem Monitor.capture_status {I : Type} (m : Monitor I) (pre post : Int) :
    ((m.Capture pre post).status = 0 ↔ (pre = 0 ∧ post = 0))
    ∧ (¬ (pre = 0 ∧ post = 0) → (m.Capture pre post).status = -1)
    ∧ (pre ≠ 0 → (m.Capture pre post).calls = [CameraCall.PreCapture])
    ∧ (pre = 0 → (m.Capture pre post).calls = [CameraCall.PreCapture, CameraCall.PostCapture])
    ∧ (m.Capture pre post).monitor = m
    ∧ ((m.Capture pre post).status ≠ 0 →
        (m.Capture pre post).monitor.image_count = m.image_count
        ∧ (m.Capture pre post).monitor.image_buffer = m.image_buffer
        ∧ (m.Capture pre post).monitor.shared_images.last_write_index
            = m.shared_images.last_write_index) := by
  unfold Monitor.Capture
  by_cases h1 : pre = 0 <;> by_cases h2 : post = 0 <;> simp [h1, h2]

/-! ## Runs of `PostCapture` -/

/-- Characters other than `%` are copied by `sprintf`. -/
theorem sprintfAux_plain (pre rest : List Char) (args : List (List Char))
    (h : '%' ∉ pre) :
    sprintfAux false (pre ++ rest) args
      = (sprintfAux false rest args).map (fun out => pre ++ out) := by
  induction pre with
  | nil => simp
  | cons c pre ih =>
    have hc : c ≠ '%' := fun e => h (by simp [e])
    have hp : '%' ∉ pre := fun e => h (by simp [e])
    rw [List.cons_append, sprintfAux, if_neg hc, ih hp, Option.map_map]
    rfl

/-- A format with no `%` is printed as it is. -/
theorem sprintfAux_literal (post : List Char) (args : List (List Char)) (h : '%' ∉ post) :
    sprintfAux false post args = some post := by
  have := sprintfAux_plain post [] args h
  rw [List.append_nil] at this
  rw [this]
  simp [sprintfAux]

/-- A format whose only directive is one `%s` prints its argument in that place. -/
theorem sprintfSpec_one_placeholder (pre post arg : List Char) (h1 : '%' ∉ pre)
    (h2 : '%' ∉ post) :
    sprintfSpec (pre ++ '%' :: 's' :: post) [arg] = some (pre ++ arg ++ post) := by
  unfold sprintfSpec
  rw [sprintfAux_plain pre _ _ h1, sprintfAux, if_pos rfl, sprintfAux,
    if_neg (by decide), if_pos rfl]
  simp [sprintfAux_literal post [] h2]

/-- A character other than `%` is kept by the verbatim substitution. -/
theorem substituteVerbatim_cons (c : Char) (t name : List Char) (hc : c ≠ '%') :
    substituteVerbatim (c :: t) name = c :: substituteVerbatim t name := by
  cases t with
  | nil => simp [substituteVerbatim]
  | cons d rest => simp [substituteVerbatim, hc]

/-- A text with no `%` is its own verbatim substitution. -/
theorem substituteVerbatim_literal (post name : List Char) (h : '%' ∉ post) :
    substituteVerbatim post name = post := by
  induction post with
  | nil => simp [substituteVerbatim]
  | cons c post ih =>
    have hc : c ≠ '%' := fun e => h (by simp [e])
    have hp : '%' ∉ post := fun e => h (by simp [e])
    rw [substituteVerbatim_cons c post name hc, ih hp]

/-- A text whose only `%` opens one `%s` placeholder: the name takes its place. -/
theorem substituteVerbatim_one_placeholder (pre post name : List Char) (h1 : '%' ∉ pre)
    (h2 : '%' ∉ post) :
    substituteVerbatim (pre ++ '%' :: 's' :: post) name = pre ++ name ++ post := by
  induction pre with
  | nil =>
    rw [List.nil_append, substituteVerbatim, if_pos ⟨rfl, rfl⟩,
      substituteVerbatim_literal post name h2, List.nil_append]
  | cons c pre ih =>
    have hc : c ≠ '%' := fun e => h1 (by simp [e])
    have hp : '%' ∉ pre := fun e => h1 (by simp [e])
    rw [List.cons_append, substituteVerbatim_cons c _ name hc, ih hp]
    simp

/-- C9 (amended). In a successful `PostCapture()` the image is annotated exactly
when `label_format` is non-empty; the text is the two-stage expansion, `strftime`
of `label_format` against the local time and then `sprintf` of that result with
the monitor name as its argument, drawn at `label_coord`.  When the
time-expanded template holds one `%s` placeholder and no other percent
character, and both texts fit their 64-byte buffers, the label is the
time-expanded template with the name (any name) put verbatim in place of the
placeholder. -/
theorem Monitor.postCapture_label {I : Type} (ext : Collaborators I) (m : Monitor I)
    (inp : CaptureInput I) (hcam : inp.cam.status = 0) :
    ((m.PostCapture ext inp).annotated.isSome = true ↔ m.label_format ≠ [])
    ∧ (m.label_format ≠ [] →
        (m.PostCapture ext inp).annotated
          = some (ext.sprintf (ext.strftime m.label_format inp.now) m.name, m.label_coord)
        ∧ (m.PostCapture ext inp).monitor.image
          = ext.Annotate inp.cam.image
              (ext.sprintf (ext.strftime m.label_format inp.now) m.name) m.label_coord)
    ∧ (m.label_format = [] →
        (m.PostCapture ext inp).annotated = none
        ∧ (m.PostCapture ext inp).monitor.image = inp.cam.image)
    ∧ (ext.SprintfConforms → m.label_format ≠ [] → ∀ pre post : List Char,
        ext.strftime m.label_format inp.now = pre ++ '%' :: 's' :: post →
        '%' ∉ pre → '%' ∉ post →
        byteLength (ext.strftime m.label_format inp.now) < 64 →
        byteLength (pre ++ m.name ++ post) < 64 →
        (m.PostCapture ext inp).annotated
          = some (substituteVerbatim (ext.strftime m.label_format inp.now) m.name, m.label_coord)
        ∧ substituteVerbatim (ext.strftime m.label_format inp.now) m.name
          = pre ++ m.name ++ post
        ∧ (m.PostCapture ext inp).monitor.image
          = ext.Annotate inp.cam.image (pre ++ m.name ++ post) m.label_coord) := by
  rw [m.postCapture_annotated ext inp hcam, m.postCapture_image ext inp hcam]
  refine ⟨?_, ?_, ?_, ?_⟩
  · by_cases h : m.label_format = [] <;> simp [h]
  · intro h
    simp [h, Monitor.labelText, Monitor.labelled]
  · intro h
    simp [h, Monitor.labelled]
  · intro hconf h pre post hE h1 h2 _ hlen
    have ht : ext.sprintf (ext.strftime m.label_format inp.now) m.name = pre ++ m.name ++ post := by
      rw [hE]
      exact hconf _ _ _ (sprintfSpec_one_placeholder pre post m.name h1 h2) hlen
    have hs : substituteVerbatim (ext.strftime m.label_format inp.now) m.name
        = pre ++ m.name ++ post := by
      rw [hE]
      exact substituteVerbatim_one_placeholder pre post m.name h1 h2
    rw [hs]
    simp [h, Monitor.labelText, Monitor.labelled, ht]

/-- C9 (amended) at the concrete monitor: template `%%s %H:%M` at 13:05:02, name `Front`. -/
theorem Monitor.postCapture_label_witness :
    (demoMonitor.PostCapture demoLib demoInput).annotated
      = some ("Front 13:05".toList, ⟨4, 8⟩) := by
  have h := (Monitor.postCapture_label demoLib demoMonitor demoInput rfl).2.2.2
    (fun _ _ _ h _ => by simp [demoLib, h]) (by decide) [] " 13:05".toList
    (by decide) (by decide) (by decide) (by decide) (by decide)
  rw [h.1, h.2.1]
  rfl

/-- C9 as first stated fails on the template `%%s 100%%%% %H`, which holds a date
token and one name placeholder, with the name `Front`, which holds no percent
character, every text fitting 64 bytes: the time-expanded template is
`%s 100%% 13`, the name put verbatim in place of the placeholder gives
`Front 100%% 13`, and the label drawn is `Front 100% 13`. -/
theorem Monitor.postCapture_label_counterexample :
    demoInput.cam.status = 0
    ∧ percentMonitor.label_format = "%%s 100%%%% %H".toList
    ∧ percentMonitor.name = "Front".toList
    ∧ '%' ∉ percentMonitor.name
    ∧ demoLib.strftime percentMonitor.label_format demoInput.now = "%s 100%% 13".toList
    ∧ byteLength "%s 100%% 13".toList < 64
    ∧ byteLength "Front 100%% 13".toList < 64
    ∧ sprintfSpec "%s 100%% 13".toList ["Front".toList] = some "Front 100% 13".toList
    ∧ substituteVerbatim "%s 100%% 13".toList "Front".toList = "Front 100%% 13".toList
    ∧ (percentMonitor.PostCapture demoLib demoInput).annotated
        = some ("Front 100% 13".toList, ⟨4, 8⟩)
    ∧ (percentMonitor.PostCapture demoLib demoInput).annotated
        ≠ some (substituteVerbatim (demoLib.strftime percentMonitor.label_format demoInput.now)
            percentMonitor.name, percentMonitor.label_coord) := by
  have ha : (percentMonitor.PostCapture demoLib demoInput).annotated
      = some ("Front 100% 13".toList, ⟨4, 8⟩) := by
    rw [percentMonitor.postCapture_annotated demoLib demoInput rfl]
    decide
  refine ⟨rfl, rfl, rfl, by decide, by decide, by decide, by decide, by decide, by decide,
    ha, ?_⟩
  rw [ha]
  decide

/-! ## The write index -/

/-- C8. At reference pixels `[0, 100]`, current pixels `[0, 0]` and ratio `1/2`,
`Adjust` leaves `[0, 90]`, the blend of weight `0.1`, where the blend of weight
`ratio` is `[0, 50]`; whatever the collaborators, the result of `Adjust` is the
blend of weight `0.1` for every ratio. -/
theorem Monitor.adjust_fixed_weight :
    (demoMonitor.Adjust demoLib (1 / 2)).ref_image.pixels = [0, 90]
    ∧ (demoMonitor.ref_image.Blend demoMonitor.image (1 / 2)).pixels = [0, 50]
    ∧ (demoMonitor.Adjust demoLib (1 / 2)).ref_image
        ≠ demoLib.Blend demoMonitor.ref_image demoMonitor.image (1 / 2)
    ∧ (∀ (I : Type) (ext : Collaborators I) (m : Monitor I) (ratio : ℚ),
        (m.Adjust ext ratio).ref_image = ext.Blend m.ref_image m.image (1 / 10)) := by
  have e1 : (demoMonitor.Adjust demoLib (1 / 2)).ref_image.pixels = [0, 90] := by
    simp [Monitor.Adjust, demoLib, PixelImage.Blend, demoMonitor, demoFrame]
    norm_num
  have e2 : (demoMonitor.ref_image.Blend demoMonitor.image (1 / 2)).pixels = [0, 50] := by
    simp [PixelImage.Blend, demoMonitor, demoFrame]
    norm_num
  refine ⟨e1, e2, ?_, fun _ _ _ _ => rfl⟩
  intro h
  have h2 : (demoMonitor.Adjust demoLib (1 / 2)).ref_image.pixels
      = (demoMonitor.ref_image.Blend demoMonitor.image (1 / 2)).pixels := by
    rw [h]
    rfl
  rw [e1, e2] at h2
  norm_num at h2

end ZoneMinder
